import Mathlib

/-
  Verification development for the buzzline-04-gillespie repository.

  The repository has two Python programs:
  - src/producers/project_producer_gillespie.py appends randomly generated
    biometric JSON records, one per line, to a shared text file;
  - src/consumers/project_consumer_gillespie.py tails that file, parses each
    new line as JSON, counts authors and redraws a chart with in-memory
    history sequences.

  This file is a shallow embedding of both programs.  Python dictionaries
  produced by json.loads are modelled by the inductive type Json below;
  json.loads itself is external library code and is modelled at the call
  boundary by an abstract parse function of type String to Option Json
  (none models a raised json.JSONDecodeError).  The matplotlib calls mutate
  no consumer state; a possible exception raised by them is modelled by an
  Option PyExc argument threaded to the point in update_chart where the
  plotting calls occur.  Machine floats only appear as the producer record
  values, which are modelled exactly as rationals.
-/

/-- A JSON value as returned by json.loads.  Python None is json null, so the
history placeholder value None appended by the consumer is Json.null here. -/
inductive Json where
  | null
  | bool (b : Bool)
  | num (q : ℚ)
  | str (s : String)
  | arr (elems : List Json)
  | obj (fields : List (String × Json))

/-- Hashability of a json.loads value as a Python dictionary key: lists and
dicts are unhashable, so using one as a key of a defaultdict raises a
TypeError; None, booleans, numbers and strings hash fine. -/
def jsonHashable : Json → Bool
  | Json.arr _ => false
  | Json.obj _ => false
  | _ => true

/-- Lookup of a string key in a JSON object member list; models both
key in d and d[k] / d.get(k) on a dict produced by json.loads. -/
def lookupField : List (String × Json) → String → Option Json
  | [], _ => none
  | (k, v) :: rest, key => if k = key then some v else lookupField rest key

/-- Interpretation of a JSON value as a Python number for the += update in
the diet branch: ints and floats add; bool is an int in Python; everything
else raises a TypeError. -/
def jsonAsNumber : Json → Option ℚ
  | Json.num q => some q
  | Json.bool b => some (if b then 1 else 0)
  | _ => none

/-- Equality of hashable json.loads values as Python dictionary keys: None
is only equal to itself, strings compare by value, and booleans and numbers
compare numerically across the bool, int and float kinds, since in Python
True == 1 and 72 == 72.0 share one dictionary slot. -/
def pyKeyEq (a b : Json) : Bool :=
  match a, b with
  | Json.null, Json.null => true
  | Json.str s, Json.str t => s == t
  | a, b =>
      match jsonAsNumber a, jsonAsNumber b with
      | some x, some y => x == y
      | _, _ => false

/-- A Python exception escaping a statement of the consumer: the
json.JSONDecodeError caught by the first except clause of process_message,
or any other exception, caught by its second except clause. -/
inductive PyExc where
  | jsonDecodeError
  | other

/-- Log events emitted by process_message, in emission order.  Payload data
of the log strings is dropped except for the received author value. -/
inductive LogEvent where
  | debugRaw
  | processedJson
  | receivedAuthor (a : Json)
  | updatedCounts
  | chartUpdated
  | expectedDict
  | invalidJson
  | processingError

/-- The chart history attached to update_chart (update_chart.history in the
source).  Line series entries are JSON values; Json.null is the Python None
placeholder appended when a field is absent. -/
structure ChartHistory where
  heart_rate : List Json
  steps : List Json
  exercise_duration : List Json
  exercise_distance : List Json
  diet : List (Json × List (String × ℚ))
  authors : List Json
  msg_count : Nat

/-- The mutable module-level state of the consumer: the author_counts
defaultdict, the chart history, and the update_chart.latest_msg attribute,
which the source reads with getattr (default empty dict) but never assigns
anywhere, so it stays none in every reachable state. -/
structure ConsumerState where
  author_counts : List (Json × Nat)
  history : ChartHistory
  latest_msg : Option Json

/-- The chart history at first initialization inside update_chart. -/
def initHistory : ChartHistory :=
  { heart_rate := []
    steps := []
    exercise_duration := []
    exercise_distance := []
    diet := []
    authors := []
    msg_count := 0 }

/-- Consumer module state at startup. -/
def initConsumer : ConsumerState :=
  { author_counts := [], history := initHistory, latest_msg := none }

/-- Increment for the author_counts defaultdict: bump an existing key or
append a new key with count one, preserving insertion order.  Keys compare
with Python dictionary key equality; the function is only reached with a
hashable key, because its callers model the TypeError an unhashable key
raises before the map is touched. -/
def bumpAuthor : List (Json × Nat) → Json → List (Json × Nat)
  | [], a => [(a, 1)]
  | (b, n) :: rest, a =>
      if pyKeyEq b a then (b, n + 1) :: rest else (b, n) :: bumpAuthor rest a

/-- Increment for the inner food defaultdict of the diet history:
m[food] += q with default zero, preserving insertion order. -/
def bumpFood : List (String × ℚ) → String → ℚ → List (String × ℚ)
  | [], f, q => [(f, q)]
  | (g, x) :: rest, f, q =>
      if g = f then (g, x + q) :: rest else (g, x) :: bumpFood rest f q

/-- Increment for the outer author defaultdict of the diet history; like
bumpAuthor, it is only reached with a hashable author key. -/
def bumpDiet : List (Json × List (String × ℚ)) → Json → String → ℚ →
    List (Json × List (String × ℚ))
  | [], a, f, q => [(a, bumpFood [] f q)]
  | (b, m) :: rest, a, f, q =>
      if pyKeyEq b a then (b, bumpFood m f q) :: rest
      else (b, m) :: bumpDiet rest a f q

/-- The for loop over latest_msg diet items.  Each iteration first indexes
the diet defaultdict with the author value, which raises a TypeError when
that value is unhashable, then adds the count with +=, which raises a
TypeError on a non-numeric count; either error carries the partially
updated map, since earlier iterations already mutated it. -/
def dietApply (author : Json) :
    List (String × Json) → List (Json × List (String × ℚ)) →
    Except (PyExc × List (Json × List (String × ℚ))) (List (Json × List (String × ℚ)))
  | [], d => Except.ok d
  | (food, v) :: rest, d =>
      if jsonHashable author then
        match jsonAsNumber v with
        | some q => dietApply author rest (bumpDiet d author food q)
        | none => Except.error (PyExc.other, d)
      else Except.error (PyExc.other, d)

/-- Tail end of update_chart after the diet branch: the heart_rate, steps
and exercise series appends (source lines 97 to 115), then the matplotlib
redraw (source lines 117 to 161), whose only modelled effect is the
possibility of raising plotExc. -/
def updateSeries (plotExc : Option PyExc) (c : ConsumerState) (h : ChartHistory)
    (fields : List (String × Json)) : Except (PyExc × ConsumerState) ConsumerState :=
  let h2 := { h with heart_rate := h.heart_rate ++ [(lookupField fields "heart_rate").getD Json.null] }
  let h3 := { h2 with steps := h2.steps ++ [(lookupField fields "steps").getD Json.null] }
  match lookupField fields "exercise" with
  | some (Json.obj efs) =>
      let h4 := { h3 with
        exercise_duration := h3.exercise_duration ++ [(lookupField efs "duration").getD Json.null]
        exercise_distance := h3.exercise_distance ++ [(lookupField efs "distance").getD Json.null] }
      match plotExc with
      | some e => Except.error (e, { c with history := h4 })
      | none => Except.ok { c with history := h4 }
  | some _ =>
      Except.error (PyExc.other, { c with history := h3 })
  | none =>
      let h4 := { h3 with
        exercise_duration := h3.exercise_duration ++ [Json.null]
        exercise_distance := h3.exercise_distance ++ [Json.null] }
      match plotExc with
      | some e => Except.error (e, { c with history := h4 })
      | none => Except.ok { c with history := h4 }

/-- The update_chart function of the consumer.  It sets history authors from
the author_counts keys and bumps msg_count, reads latest_msg with getattr
(default empty dict; the attribute is never assigned, so the default is
what every real call sees), runs the diet branch, appends one entry to each
line series (the field value when the key is present in latest_msg, Python
None otherwise), then redraws.  A raised exception carries the state
mutated so far, because the Python mutations are in place. -/
def update_chart (plotExc : Option PyExc) (c : ConsumerState) :
    Except (PyExc × ConsumerState) ConsumerState :=
  let h1 := { c.history with
    authors := c.author_counts.map Prod.fst
    msg_count := c.history.msg_count + 1 }
  match c.latest_msg.getD (Json.obj []) with
  | Json.obj fields =>
      let author := (lookupField fields "author").getD (Json.str "unknown")
      match lookupField fields "diet" with
      | some (Json.obj dfs) =>
          match dietApply author dfs h1.diet with
          | Except.ok d2 => updateSeries plotExc c { h1 with diet := d2 } fields
          | Except.error (e, d2) =>
              Except.error (e, { c with history := { h1 with diet := d2 } })
      | some _ => Except.error (PyExc.other, { c with history := h1 })
      | none => updateSeries plotExc c h1 fields
  | _ => Except.error (PyExc.other, { c with history := h1 })

/-- The try block of process_message (source lines 177 to 206).  The parsed
argument is the json.loads result: none models a decode error raised at the
json.loads call.  For a dict message, the author_counts increment raises a
TypeError when the author value is unhashable (a JSON array or object),
before update_chart runs and before the map is touched.  An error result
carries the exception, the state at the raise point and the log events
already emitted. -/
def process_message_try (parsed : Option Json) (plotExc : Option PyExc)
    (c : ConsumerState) :
    Except (PyExc × ConsumerState × List LogEvent) (ConsumerState × List LogEvent) :=
  match parsed with
  | none => Except.error (PyExc.jsonDecodeError, c, [LogEvent.debugRaw])
  | some j =>
      match j with
      | Json.obj fields =>
          let author := (lookupField fields "author").getD (Json.str "unknown")
          if jsonHashable author then
            let c1 := { c with author_counts := bumpAuthor c.author_counts author }
            let logs := [LogEvent.debugRaw, LogEvent.processedJson,
                         LogEvent.receivedAuthor author, LogEvent.updatedCounts]
            match update_chart plotExc c1 with
            | Except.ok c2 => Except.ok (c2, logs ++ [LogEvent.chartUpdated])
            | Except.error (e, c2) => Except.error (e, c2, logs)
          else
            Except.error (PyExc.other, c,
              [LogEvent.debugRaw, LogEvent.processedJson, LogEvent.receivedAuthor author])
      | _ =>
          Except.ok (c, [LogEvent.debugRaw, LogEvent.processedJson, LogEvent.expectedDict])

/-- The whole process_message function: the try block wrapped in its two
except clauses.  The result type is Except because an uncaught exception
would propagate to the read loop of main; the handlers make every branch
return ok. -/
def process_message (parsed : Option Json) (plotExc : Option PyExc)
    (c : ConsumerState) :
    Except (PyExc × ConsumerState) (ConsumerState × List LogEvent) :=
  match process_message_try parsed plotExc c with
  | Except.ok r => Except.ok r
  | Except.error (PyExc.jsonDecodeError, c2, logs) =>
      Except.ok (c2, logs ++ [LogEvent.invalidJson])
  | Except.error (PyExc.other, c2, logs) =>
      Except.ok (c2, logs ++ [LogEvent.processingError])

/-- Consumer state reached after one process_message call; the state is the
same whether the call returned or an exception escaped, because the Python
mutations are in place. -/
def pmState (parsed : Option Json) (plotExc : Option PyExc)
    (c : ConsumerState) : ConsumerState :=
  match process_message parsed plotExc c with
  | Except.ok (c2, _) => c2
  | Except.error (_, c2) => c2

/-- Truthiness of line.strip() in the read loop: the stripped line is
nonempty iff the line holds at least one non-whitespace character. -/
def nonblankLine (l : String) : Bool := l.data.any (fun c => !c.isWhitespace)

/-- State of the read loop of main: the byte offset is abstracted to a line
cursor into the list of complete lines of the shared file, plus the consumer
module state, the lines dispatched to process_message so far in dispatch
order, and whether an uncaught exception ended the loop. -/
structure TailState where
  cursor : Nat
  consumer : ConsumerState
  dispatched : List String
  halted : Bool

/-- Read loop state right after the seek to end of file, when the file
already holds c lines. -/
def initTail (c : Nat) : TailState :=
  { cursor := c, consumer := initConsumer, dispatched := [], halted := false }

/-- One iteration of the while loop of main (source lines 240 to 253): read
the next line (none models the empty readline at end of file, where the
loop sleeps and retries without advancing); skip a line that is blank after
stripping; otherwise dispatch it to process_message.  The exc argument is
the exception, if any, that the matplotlib redraw raises this iteration. -/
def tailStep (p : String → Option Json) (exc : Option PyExc)
    (file : List String) (s : TailState) : TailState :=
  if s.halted then s
  else
    match file[s.cursor]? with
    | none => s
    | some line =>
        if nonblankLine line then
          match process_message (p line) exc s.consumer with
          | Except.ok (c2, _) =>
              { s with
                cursor := s.cursor + 1
                consumer := c2
                dispatched := s.dispatched ++ [line] }
          | Except.error (_, c2) =>
              { s with
                cursor := s.cursor + 1
                consumer := c2
                dispatched := s.dispatched ++ [line]
                halted := true }
        else
          { s with cursor := s.cursor + 1 }

/-- The read loop run for one exception-schedule entry per iteration. -/
def runTail (p : String → Option Json) (file : List String) :
    List (Option PyExc) → TailState → TailState
  | [], s => s
  | e :: es, s => runTail p file es (tailStep p e file s)

/-- Outcome of the main function of the consumer. -/
inductive MainResult where
  | exitEarly (code : Nat)
  | ranLoop (final : TailState)

/-- The main function of the consumer (source lines 219 to 262): if the data
file does not exist, log and exit with status one before any read; otherwise
open the file, seek to its end (the pre lines already present are skipped)
and run the read loop over the file contents, which afterwards also hold the
app lines appended after startup. -/
def consumer_main (fileExists : Bool) (pre app : List String)
    (p : String → Option Json) (excs : List (Option PyExc)) : MainResult :=
  if fileExists then
    MainResult.ranLoop (runTail p (pre ++ app) excs (initTail pre.length))
  else
    MainResult.exitEarly 1

/-- The four record types the producer draws from (UPDATE_TYPE in the
source). -/
inductive UpdateType where
  | heart_rate
  | steps
  | diet
  | exercise

/-- One set of draws from the random module for a single yielded message.
The seven integer draws model random.randint results; distance models the
round to two decimals of a random.uniform result, exactly as a rational. -/
structure Draws where
  heart_rate : Int
  steps : Int
  calories : Int
  carbs : Int
  protein : Int
  fat : Int
  duration : Int
  distance : ℚ

/-- One step of the generate_messages generator of the producer (source
lines 87 to 122): build the payload for the drawn type, then set the type
key last. -/
def generate_message (t : UpdateType) (r : Draws) : Json :=
  match t with
  | UpdateType.heart_rate =>
      Json.obj [("heart_rate", Json.num (r.heart_rate : ℚ)),
                ("type", Json.str "heart_rate")]
  | UpdateType.steps =>
      Json.obj [("steps", Json.num (r.steps : ℚ)),
                ("type", Json.str "steps")]
  | UpdateType.diet =>
      Json.obj [("calories", Json.num (r.calories : ℚ)),
                ("carbs", Json.num (r.carbs : ℚ)),
                ("protein", Json.num (r.protein : ℚ)),
                ("fat", Json.num (r.fat : ℚ)),
                ("type", Json.str "diet")]
  | UpdateType.exercise =>
      Json.obj [("exercise_duration", Json.num (r.duration : ℚ)),
                ("exercise_distance", Json.num r.distance),
                ("type", Json.str "exercise")]

/-- Range check of one numeric JSON value, written from the words of the
specification for the refinement claim about producer records. -/
def inRange (lo hi : ℚ) (v : Json) : Bool :=
  match v with
  | Json.num q => decide (lo ≤ q) && decide (q ≤ hi)
  | _ => false

/-- Range check of an optional payload field: absent fields pass. -/
def fieldInRange (fs : List (String × Json)) (k : String) (lo hi : ℚ) : Bool :=
  match lookupField fs k with
  | none => true
  | some v => inRange lo hi v

/-- Modelled from the spec: the record contract the specification states for
producer messages, to be compared with generate_message.  A record passes
iff it is a JSON object whose type field is one of the four fixed names and
every payload field it carries lies in its fixed range. -/
def producerRecordOk (m : Json) : Bool :=
  match m with
  | Json.obj fs =>
      (match lookupField fs "type" with
       | some (Json.str t) =>
           decide (t = "heart_rate" ∨ t = "steps" ∨ t = "diet" ∨ t = "exercise")
       | _ => false)
      && fieldInRange fs "heart_rate" 60 100
      && fieldInRange fs "steps" 0 100
      && fieldInRange fs "calories" 200 800
      && fieldInRange fs "carbs" 20 100
      && fieldInRange fs "protein" 10 50
      && fieldInRange fs "fat" 5 30
      && fieldInRange fs "exercise_duration" 10 60
      && fieldInRange fs "exercise_distance" 1 10
  | _ => false

/-- Alignment by message index of the four line series of the history. -/
def seriesAligned (h : ChartHistory) : Prop :=
  h.steps.length = h.heart_rate.length ∧
  h.exercise_duration.length = h.heart_rate.length ∧
  h.exercise_distance.length = h.heart_rate.length

/-- Lookup of a key on an arbitrary JSON value; none when the value is not
an object. -/
def jsonGet (j : Json) (k : String) : Option Json :=
  match j with
  | Json.obj fs => lookupField fs k
  | _ => none

/-- The isinstance dict test of process_message on the json.loads result. -/
def Json.isObj : Json → Bool
  | Json.obj _ => true
  | _ => false

/-- Both except clauses of process_message return normally, so the whole
function always produces an ok result, whatever the parse outcome, the
injected plotting exception and the prior state. -/
lemma process_message_isOk (parsed : Option Json) (plotExc : Option PyExc)
    (c : ConsumerState) :
    ∃ c2 logs, process_message parsed plotExc c = Except.ok (c2, logs) := by
  cases h : process_message_try parsed plotExc c with
  | ok r => exact ⟨r.1, r.2, by simp [process_message, h]⟩
  | error e =>
      obtain ⟨e1, c2, logs⟩ := e
      cases e1
      · exact ⟨c2, logs ++ [LogEvent.invalidJson], by simp [process_message, h]⟩
      · exact ⟨c2, logs ++ [LogEvent.processingError], by simp [process_message, h]⟩

/-- One loop iteration never sets the halted flag: the dispatch of a line
goes through process_message, which never lets an exception escape. -/
lemma tailStep_halted (p : String → Option Json) (exc : Option PyExc)
    (file : List String) (s : TailState) (hs : s.halted = false) :
    (tailStep p exc file s).halted = false := by
  rcases hl : file[s.cursor]? with _ | line
  · simp [tailStep, hs, hl]
  · cases hnb : nonblankLine line
    · simp [tailStep, hs, hl, hnb]
    · obtain ⟨c2, logs, hpm⟩ := process_message_isOk (p line) exc s.consumer
      simp [tailStep, hs, hl, hnb, hpm]

/-- Characterization of the read loop: over any exception schedule, starting
from a non-halted state, the loop stays non-halted and the lines dispatched
to process_message are exactly the nonblank lines of the file slice that
starts at the initial cursor positon and has one line per iteration, in file
order. -/
lemma runTail_spec (p : String → Option Json) (file : List String) :
    ∀ (excs : List (Option PyExc)) (s : TailState), s.halted = false →
      (runTail p file excs s).halted = false ∧
      (runTail p file excs s).dispatched =
        s.dispatched ++ ((file.drop s.cursor).take excs.length).filter nonblankLine := by
  intro excs
  induction excs with
  | nil =>
      intro s hs
      exact ⟨hs, by simp [runTail]⟩
  | cons e es ih =>
      intro s hs
      have hstep := tailStep_halted p e file s hs
      obtain ⟨hh, hd⟩ := ih (tailStep p e file s) hstep
      rw [runTail]
      refine ⟨hh, ?_⟩
      rw [hd]
      rcases hl : file[s.cursor]? with _ | line
      · have hlen : file.length ≤ s.cursor := List.getElem?_eq_none_iff.mp hl
        have hnil : file.drop s.cursor = [] := List.drop_eq_nil_of_le hlen
        simp [tailStep, hs, hl, hnil]
      · obtain ⟨hlt, hget⟩ := List.getElem?_eq_some.mp hl
        have hdrop : file.drop s.cursor = line :: file.drop (s.cursor + 1) := by
          rw [List.drop_eq_getElem_cons hlt, hget]
        cases hnb : nonblankLine line
        · simp [tailStep, hs, hl, hnb, hdrop, List.filter_cons]
        · obtain ⟨c2, logs, hpm⟩ := process_message_isOk (p line) e s.consumer
          simp [tailStep, hs, hl, hnb, hpm, hdrop, List.filter_cons]

/-- The scenario record of the specification with heart rate 72. -/
def hrMsg72 : Json :=
  Json.obj [("heart_rate", Json.num 72), ("type", Json.str "heart_rate")]

/-- A steps record, as in the two-record scenario of the specification. -/
def stepsMsg (n : ℚ) : Json :=
  Json.obj [("steps", Json.num n), ("type", Json.str "steps")]

/-- C1: evaluating the consumer at the scenario inputs of the claim.  The
heart rate history does gain exactly one entry when the heart_rate 72 record
is processed, but the entry is Json.null (the Python None placeholder) and
not 72, and the two steps records with values 10 and 55 yield a steps
history of two null entries rather than [10, 55]: process_message never
assigns update_chart.latest_msg, so update_chart always reads its getattr
default, the empty dict, and every field lookup misses. -/
theorem C1_history_gains_placeholder_not_value :
    (∃ c logs, process_message (some hrMsg72) none initConsumer = Except.ok (c, logs) ∧
      c.history.heart_rate = [Json.null] ∧ c.history.heart_rate ≠ [Json.num 72]) ∧
    (pmState (some (stepsMsg 55)) none
        (pmState (some (stepsMsg 10)) none initConsumer)).history.steps
      = [Json.null, Json.null] := by
  constructor
  · refine ⟨_, _, rfl, rfl, ?_⟩
    intro h
    exact Json.noConfusion (List.cons.inj h).1
  · rfl

/-- C3 counterexample: the claim says a history series gains the record
field value when the field is present, but processing the heart_rate 72
record from the initial state appends the placeholder Json.null to the
heart rate history, not 72, because the record is never handed to
update_chart. -/
theorem C3_present_field_value_not_appended :
    ∃ c logs, process_message (some hrMsg72) none initConsumer = Except.ok (c, logs) ∧
      c.history.heart_rate ≠ [Json.num 72] ∧
      c.history.heart_rate = [Json.null] ∧
      jsonGet hrMsg72 "heart_rate" = some (Json.num 72) := by
  refine ⟨_, _, rfl, ?_, rfl, rfl⟩
  intro h
  exact Json.noConfusion (List.cons.inj h).1

/-- C5: if the data file is missing at startup the consumer exits with
status one before any read; if it exists, the read loop is entered on the
file contents, starting at the end of the pre-existing lines. -/
theorem C5_missing_file_is_fatal (pre app : List String)
    (p : String → Option Json) (excs : List (Option PyExc)) :
    consumer_main false pre app p excs = MainResult.exitEarly 1 ∧
    consumer_main true pre app p excs =
      MainResult.ranLoop (runTail p (pre ++ app) excs (initTail pre.length)) :=
  ⟨rfl, rfl⟩

/-- C6: process_message never propagates an exception to the read loop:
whatever the parse outcome, the injected plotting exception and the state,
it returns an ok result, and consequently a loop iteration never sets the
halted flag of the loop state. -/
theorem C6_no_exception_escapes (parsed : Option Json) (pexc : Option PyExc)
    (c : ConsumerState) :
    (∃ c2 logs, process_message parsed pexc c = Except.ok (c2, logs)) ∧
    (∀ (p : String → Option Json) (e : Option PyExc) (file : List String)
        (s : TailState), s.halted = false → (tailStep p e file s).halted = false) :=
  ⟨process_message_isOk parsed pexc c,
   fun p e file s hs => tailStep_halted p e file s hs⟩

/-- C6 witness: the guarantee evaluated at the empty parse outcome, an
injected plotting exception and the initial loop state. -/
theorem C6_no_exception_escapes_witness :
    (∃ c2 logs, process_message none (some PyExc.other) initConsumer
      = Except.ok (c2, logs)) ∧
    (tailStep (fun _ => none) none ["a"] (initTail 0)).halted = false :=
  ⟨(C6_no_exception_escapes none (some PyExc.other) initConsumer).1,
   (C6_no_exception_escapes none (some PyExc.other) initConsumer).2
     (fun _ => none) none ["a"] (initTail 0) rfl⟩

/-- C9: a parsed JSON value that is not an object (the isinstance dict test
fails) makes process_message log the expected-dictionary error and return
with the state unchanged: author_counts untouched, every history series
untouched, and no chart update. -/
theorem C9_non_object_value_leaves_state_unchanged (j : Json)
    (pexc : Option PyExc) (c : ConsumerState) (h : j.isObj = false) :
    process_message (some j) pexc c =
      Except.ok (c, [LogEvent.debugRaw, LogEvent.processedJson, LogEvent.expectedDict]) := by
  cases j
  case obj fs => exact absurd h (by simp [Json.isObj])
  all_goals rfl

/-- C9 witness: a JSON number is rejected with the state unchanged. -/
theorem C9_non_object_value_witness :
    Json.isObj (Json.num 3) = false ∧
    process_message (some (Json.num 3)) none initConsumer =
      Except.ok (initConsumer,
        [LogEvent.debugRaw, LogEvent.processedJson, LogEvent.expectedDict]) :=
  ⟨rfl, C9_non_object_value_leaves_state_unchanged (Json.num 3) none initConsumer rfl⟩

/-- Consumer state after the author_counts increment of process_message for
a dict message with the given member list. -/
def bumped (c : ConsumerState) (fs : List (String × Json)) : ConsumerState :=
  { c with author_counts :=
      bumpAuthor c.author_counts ((lookupField fs "author").getD (Json.str "unknown")) }

/-- History produced by one update_chart call whose latest_msg member list
carries neither a diet key nor an exercise key: every line series gains
exactly one entry (the looked-up field value or the None placeholder) and
the diet map is untouched. -/
def appendedFrom (c : ConsumerState) (fs : List (String × Json)) : ChartHistory :=
  { heart_rate := c.history.heart_rate ++ [(lookupField fs "heart_rate").getD Json.null]
    steps := c.history.steps ++ [(lookupField fs "steps").getD Json.null]
    exercise_duration := c.history.exercise_duration ++ [Json.null]
    exercise_distance := c.history.exercise_distance ++ [Json.null]
    diet := c.history.diet
    authors := c.author_counts.map Prod.fst
    msg_count := c.history.msg_count + 1 }

/-- update_chart without a plotting exception, when the effective latest
message is an object without diet and exercise keys. -/
lemma update_chart_absent_none (c : ConsumerState) (fs : List (String × Json))
    (hlm : c.latest_msg.getD (Json.obj []) = Json.obj fs)
    (hdk : lookupField fs "diet" = none)
    (hek : lookupField fs "exercise" = none) :
    update_chart none c = Except.ok { c with history := appendedFrom c fs } := by
  simp [update_chart, updateSeries, appendedFrom, hlm, hdk, hek]

/-- update_chart with a plotting exception raised by the redraw calls: the
exception escapes, but only after every series append already happened. -/
lemma update_chart_absent_some (e : PyExc) (c : ConsumerState)
    (fs : List (String × Json))
    (hlm : c.latest_msg.getD (Json.obj []) = Json.obj fs)
    (hdk : lookupField fs "diet" = none)
    (hek : lookupField fs "exercise" = none) :
    update_chart (some e) c = Except.error (e, { c with history := appendedFrom c fs }) := by
  simp [update_chart, updateSeries, appendedFrom, hlm, hdk, hek]

/-- process_message on a dict message with a hashable author value whose
update_chart call returns. -/
lemma process_message_obj_ok (fs : List (String × Json)) (pexc : Option PyExc)
    (c c2 : ConsumerState)
    (hha : jsonHashable ((lookupField fs "author").getD (Json.str "unknown")) = true)
    (h : update_chart pexc (bumped c fs) = Except.ok c2) :
    process_message (some (Json.obj fs)) pexc c =
      Except.ok (c2, [LogEvent.debugRaw, LogEvent.processedJson,
        LogEvent.receivedAuthor ((lookupField fs "author").getD (Json.str "unknown")),
        LogEvent.updatedCounts, LogEvent.chartUpdated]) := by
  simp only [bumped] at h
  simp [process_message, process_message_try, hha, h]

/-- process_message on a dict message with a hashable author value whose
update_chart call raises: the second except clause logs and returns the
state mutated so far. -/
lemma process_message_obj_err (fs : List (String × Json)) (pexc : Option PyExc)
    (c c2 : ConsumerState) (e : PyExc)
    (hha : jsonHashable ((lookupField fs "author").getD (Json.str "unknown")) = true)
    (h : update_chart pexc (bumped c fs) = Except.error (e, c2)) :
    ∃ tl, process_message (some (Json.obj fs)) pexc c =
      Except.ok (c2, [LogEvent.debugRaw, LogEvent.processedJson,
        LogEvent.receivedAuthor ((lookupField fs "author").getD (Json.str "unknown")),
        LogEvent.updatedCounts] ++ [tl]) := by
  simp only [bumped] at h
  cases e
  · exact ⟨LogEvent.invalidJson, by simp [process_message, process_message_try, hha, h]⟩
  · exact ⟨LogEvent.processingError, by simp [process_message, process_message_try, hha, h]⟩

/-- process_message on a dict message whose author value is unhashable: the
author_counts increment raises a TypeError, the second except clause
catches it, and the state comes back exactly unchanged — update_chart never
ran, so no history series gained an entry. -/
lemma process_message_obj_unhashable (fs : List (String × Json))
    (pexc : Option PyExc) (c : ConsumerState)
    (hha : jsonHashable ((lookupField fs "author").getD (Json.str "unknown")) = false) :
    process_message (some (Json.obj fs)) pexc c =
      Except.ok (c, [LogEvent.debugRaw, LogEvent.processedJson,
        LogEvent.receivedAuthor ((lookupField fs "author").getD (Json.str "unknown")),
        LogEvent.processingError]) := by
  simp [process_message, process_message_try, hha]

/-- C3 amended: for every dict message processed by the consumer, when the
author value of the message (its author field, or the string unknown when
absent) is hashable, each of the four line series gains exactly one entry,
but the entry is always the None placeholder, never a field value of the
record, because the record is never passed to update_chart (latest_msg is
never assigned); the diet map is untouched, whether or not the redraw
raises.  When the author value is unhashable (a JSON array or object), the
author_counts increment raises a TypeError that the second except clause
catches before update_chart runs, so the state is returned exactly
unchanged and no series gains an entry.  In both cases the four series keep
equal lengths, aligned by message index. -/
theorem C3_amended_each_series_gains_one_placeholder
    (fields : List (String × Json)) (pexc : Option PyExc) (c : ConsumerState)
    (hlm : c.latest_msg = none) :
    (jsonHashable ((lookupField fields "author").getD (Json.str "unknown")) = true →
      ∃ c2 logs, process_message (some (Json.obj fields)) pexc c = Except.ok (c2, logs) ∧
        c2.history.heart_rate = c.history.heart_rate ++ [Json.null] ∧
        c2.history.steps = c.history.steps ++ [Json.null] ∧
        c2.history.exercise_duration = c.history.exercise_duration ++ [Json.null] ∧
        c2.history.exercise_distance = c.history.exercise_distance ++ [Json.null] ∧
        c2.history.diet = c.history.diet ∧
        (seriesAligned c.history → seriesAligned c2.history)) ∧
    (jsonHashable ((lookupField fields "author").getD (Json.str "unknown")) = false →
      process_message (some (Json.obj fields)) pexc c =
        Except.ok (c, [LogEvent.debugRaw, LogEvent.processedJson,
          LogEvent.receivedAuthor ((lookupField fields "author").getD (Json.str "unknown")),
          LogEvent.processingError])) := by
  constructor
  · intro hha
    have hlm1 : (bumped c fields).latest_msg.getD (Json.obj []) = Json.obj [] := by
      simp [bumped, hlm]
    cases pexc with
    | none =>
        have hch := update_chart_absent_none (bumped c fields) [] hlm1 rfl rfl
        refine ⟨_, _, process_message_obj_ok fields none c _ hha hch, ?_, ?_, ?_, ?_, ?_, ?_⟩ <;>
          simp [bumped, appendedFrom, lookupField, seriesAligned, List.length_append]
    | some e =>
        have hch := update_chart_absent_some e (bumped c fields) [] hlm1 rfl rfl
        obtain ⟨tl, hpm⟩ := process_message_obj_err fields (some e) c _ e hha hch
        refine ⟨_, _, hpm, ?_, ?_, ?_, ?_, ?_, ?_⟩ <;>
          simp [bumped, appendedFrom, lookupField, seriesAligned, List.length_append]
  · intro hha
    exact process_message_obj_unhashable fields pexc c hha

/-- C3 amended witness: a heart_rate record (hashable default author)
processed from the initial state grows all four series by one placeholder
entry, and a record whose author value is a JSON array is caught by the
per-message handler with the state exactly unchanged. -/
theorem C3_amended_witness :
    initConsumer.latest_msg = none ∧
    jsonHashable ((lookupField [("heart_rate", Json.num 72)] "author").getD
      (Json.str "unknown")) = true ∧
    (∃ c2 logs, process_message (some (Json.obj [("heart_rate", Json.num 72)]))
        none initConsumer = Except.ok (c2, logs) ∧
      c2.history.heart_rate = initConsumer.history.heart_rate ++ [Json.null] ∧
      c2.history.steps = initConsumer.history.steps ++ [Json.null] ∧
      c2.history.exercise_duration = initConsumer.history.exercise_duration ++ [Json.null] ∧
      c2.history.exercise_distance = initConsumer.history.exercise_distance ++ [Json.null] ∧
      c2.history.diet = initConsumer.history.diet ∧
      (seriesAligned initConsumer.history → seriesAligned c2.history)) ∧
    jsonHashable ((lookupField [("author", Json.arr [])] "author").getD
      (Json.str "unknown")) = false ∧
    process_message (some (Json.obj [("author", Json.arr [])])) none initConsumer =
      Except.ok (initConsumer, [LogEvent.debugRaw, LogEvent.processedJson,
        LogEvent.receivedAuthor (Json.arr []), LogEvent.processingError]) :=
  ⟨rfl, rfl,
   (C3_amended_each_series_gains_one_placeholder
     [("heart_rate", Json.num 72)] none initConsumer rfl).1 rfl,
   rfl,
   (C3_amended_each_series_gains_one_placeholder
     [("author", Json.arr [])] none initConsumer rfl).2 rfl⟩

/-- C2: once the consumer is past startup, the read loop dispatches exactly
the nonblank lines of the appended suffix, in append order; given that no
blank line parses as JSON (true of json.loads), every appended line that
parses is dispatched, and each exactly as often as it was appended — no
skip, no duplicate, no reorder.  The excs schedule gives one loop iteration
per entry, so any schedule at least as long as the appended suffix makes the
loop reach every appended line. -/
theorem C2_appended_lines_dispatched_in_order (p : String → Option Json)
    (pre app : List String) (excs : List (Option PyExc))
    (hlen : app.length ≤ excs.length)
    (hws : ∀ l, nonblankLine l = false → p l = none) :
    ∃ final, consumer_main true pre app p excs = MainResult.ranLoop final ∧
      final.dispatched = app.filter nonblankLine ∧
      (∀ l, l ∈ app → (p l).isSome = true → l ∈ final.dispatched) ∧
      (∀ l, (p l).isSome = true → final.dispatched.count l = app.count l) := by
  obtain ⟨hh, hd⟩ := runTail_spec p (pre ++ app) excs (initTail pre.length) rfl
  have hnbOf : ∀ l : String, (p l).isSome = true → nonblankLine l = true := by
    intro l hsome
    cases hnb2 : nonblankLine l
    · rw [hws l hnb2] at hsome
      simp at hsome
    · rfl
  have hdisp : (runTail p (pre ++ app) excs (initTail pre.length)).dispatched
      = app.filter nonblankLine := by
    rw [hd]
    simp only [initTail, List.nil_append, List.drop_left]
    rw [List.take_of_length_le hlen]
  refine ⟨_, rfl, hdisp, ?_, ?_⟩
  · intro l hmem hsome
    rw [hdisp]
    exact List.mem_filter.mpr ⟨hmem, hnbOf l hsome⟩
  · intro l hsome
    rw [hdisp]
    exact List.count_filter (hnbOf l hsome)

/-- Concrete parse function for witnesses: only the line g parses. -/
def pWitness : String → Option Json :=
  fun l => if l == "g" then some (Json.obj []) else none

/-- Blank lines never parse under pWitness. -/
lemma pWitness_blank (l : String) (h : nonblankLine l = false) :
    pWitness l = none := by
  by_cases h2 : l = "g"
  · subst h2
    exact absurd h (by decide)
  · simp [pWitness, h2]

/-- C2 witness: three appended lines behind one pre-existing line, with a
three-entry schedule; the nonblank appended lines come out in order. -/
theorem C2_appended_lines_witness :
    (["g", " ", "x"] : List String).length ≤ ([none, none, none] : List (Option PyExc)).length ∧
    (∃ final, consumer_main true ["old"] ["g", " ", "x"] pWitness [none, none, none]
        = MainResult.ranLoop final ∧
      final.dispatched = (["g", " ", "x"] : List String).filter nonblankLine ∧
      (∀ l, l ∈ (["g", " ", "x"] : List String) → (pWitness l).isSome = true →
        l ∈ final.dispatched) ∧
      (∀ l, (pWitness l).isSome = true →
        final.dispatched.count l = (["g", " ", "x"] : List String).count l)) :=
  ⟨by decide,
   C2_appended_lines_dispatched_in_order pWitness ["old"] ["g", " ", "x"]
     [none, none, none] (by decide) pWitness_blank⟩

/-- C7: whatever was already in the file before startup, the loop starts at
the end-of-file cursor, so what it dispatches is drawn from the appended
suffix alone: no pre-existing line is ever dispatched. -/
theorem C7_lines_before_startup_never_seen (p : String → Option Json)
    (pre app : List String) (excs : List (Option PyExc)) :
    ∃ final, consumer_main true pre app p excs = MainResult.ranLoop final ∧
      final.dispatched = (app.take excs.length).filter nonblankLine ∧
      ∀ l, l ∈ final.dispatched → l ∈ app := by
  obtain ⟨hh, hd⟩ := runTail_spec p (pre ++ app) excs (initTail pre.length) rfl
  have hdisp : (runTail p (pre ++ app) excs (initTail pre.length)).dispatched
      = (app.take excs.length).filter nonblankLine := by
    rw [hd]
    simp only [initTail, List.nil_append, List.drop_left]
  refine ⟨_, rfl, hdisp, ?_⟩
  intro l hmem
  rw [hdisp] at hmem
  exact List.mem_of_mem_take (List.mem_filter.mp hmem).1

/-- C7 witness: with two pre-existing lines (one of them nonblank and
parseable) and one appended line, only the appended line is dispatched. -/
theorem C7_lines_before_startup_witness :
    ∃ final, consumer_main true ["g", "old"] ["x"] pWitness [none, none]
        = MainResult.ranLoop final ∧
      final.dispatched = ((["x"] : List String).take 2).filter nonblankLine ∧
      ∀ l, l ∈ final.dispatched → l ∈ (["x"] : List String) :=
  C7_lines_before_startup_never_seen pWitness ["g", "old"] ["x"] [none, none]

/-- C4: a line whose JSON decode fails is logged and discarded with the
consumer state unchanged (in particular every history series keeps its
length), and the loop goes on: in a file holding a bad line followed by a
good one, both lines are dispatched and the final consumer state is exactly
the state produced by processing the good line alone. -/
theorem C4_decode_error_discards_line_loop_continues (pexc : Option PyExc)
    (c : ConsumerState) (p : String → Option Json) (bad good : String) (j : Json)
    (hbad : p bad = none) (hgood : p good = some j)
    (hnb1 : nonblankLine bad = true) (hnb2 : nonblankLine good = true) :
    process_message none pexc c = Except.ok (c, [LogEvent.debugRaw, LogEvent.invalidJson]) ∧
    (runTail p [bad, good] [none, none] (initTail 0)).dispatched = [bad, good] ∧
    (runTail p [bad, good] [none, none] (initTail 0)).consumer =
      pmState (some j) none initConsumer := by
  obtain ⟨c2, logs, hpm⟩ := process_message_isOk (some j) none initConsumer
  have h1 : tailStep p none [bad, good] (initTail 0) =
      { cursor := 1, consumer := initConsumer, dispatched := [bad], halted := false } := by
    simp [tailStep, initTail, hnb1, hbad, process_message, process_message_try]
  have h2 : tailStep p none [bad, good]
      { cursor := 1, consumer := initConsumer, dispatched := [bad], halted := false } =
      { cursor := 2, consumer := c2, dispatched := [bad, good], halted := false } := by
    simp [tailStep, hnb2, hgood, hpm]
  have hrun : runTail p [bad, good] [none, none] (initTail 0) =
      { cursor := 2, consumer := c2, dispatched := [bad, good], halted := false } := by
    simp [runTail, h1, h2]
  refine ⟨rfl, ?_, ?_⟩
  · rw [hrun]
  · rw [hrun]
    simp [pmState, hpm]

/-- C4 witness: the non-JSON line x is discarded with the state unchanged
and the following good line g is still processed. -/
theorem C4_decode_error_witness :
    pWitness "x" = none ∧ pWitness "g" = some (Json.obj []) ∧
    nonblankLine "x" = true ∧ nonblankLine "g" = true ∧
    (process_message none none initConsumer
      = Except.ok (initConsumer, [LogEvent.debugRaw, LogEvent.invalidJson]) ∧
    (runTail pWitness ["x", "g"] [none, none] (initTail 0)).dispatched = ["x", "g"] ∧
    (runTail pWitness ["x", "g"] [none, none] (initTail 0)).consumer =
      pmState (some (Json.obj [])) none initConsumer) :=
  ⟨rfl, rfl, by decide, by decide,
   C4_decode_error_discards_line_loop_continues none initConsumer pWitness "x" "g"
     (Json.obj []) rfl rfl (by decide) (by decide)⟩

/-- C8: whatever record type the producer draws, the yielded message is a
JSON object tagged with a type field drawn from the four fixed names, and —
given the random draw contract (randint lies within its bounds, and the
rounded uniform draw for distance lies within its bounds) — every numeric
payload field it carries lies in its fixed range, as checked by the
spec-side record contract producerRecordOk. -/
theorem C8_producer_record_well_formed (t : UpdateType) (r : Draws)
    (h1 : 60 ≤ r.heart_rate) (h2 : r.heart_rate ≤ 100)
    (h3 : 0 ≤ r.steps) (h4 : r.steps ≤ 100)
    (h5 : 200 ≤ r.calories) (h6 : r.calories ≤ 800)
    (h7 : 20 ≤ r.carbs) (h8 : r.carbs ≤ 100)
    (h9 : 10 ≤ r.protein) (h10 : r.protein ≤ 50)
    (h11 : 5 ≤ r.fat) (h12 : r.fat ≤ 30)
    (h13 : 10 ≤ r.duration) (h14 : r.duration ≤ 60)
    (h15 : 1 ≤ r.distance) (h16 : r.distance ≤ 10) :
    producerRecordOk (generate_message t r) = true ∧
    (∃ tn, jsonGet (generate_message t r) "type" = some (Json.str tn) ∧
      (tn = "heart_rate" ∨ tn = "steps" ∨ tn = "diet" ∨ tn = "exercise")) := by
  cases t
  case heart_rate =>
    refine ⟨?_, "heart_rate", rfl, by simp⟩
    simp [producerRecordOk, generate_message, fieldInRange, lookupField, inRange]
    exact ⟨by exact_mod_cast h1, by exact_mod_cast h2⟩
  case steps =>
    refine ⟨?_, "steps", rfl, by simp⟩
    simp [producerRecordOk, generate_message, fieldInRange, lookupField, inRange]
    exact ⟨by exact_mod_cast h3, by exact_mod_cast h4⟩
  case diet =>
    refine ⟨?_, "diet", rfl, by simp⟩
    simp [producerRecordOk, generate_message, fieldInRange, lookupField, inRange]
    norm_cast
  case exercise =>
    refine ⟨?_, "exercise", rfl, by simp⟩
    simp [producerRecordOk, generate_message, fieldInRange, lookupField, inRange]
    exact ⟨⟨by exact_mod_cast h13, by exact_mod_cast h14⟩, h15, h16⟩

/-- C8 witness: one concrete draw set inside all the bounds yields a
well-formed record for every record type; shown here for exercise. -/
theorem C8_producer_record_witness :
    (60 ≤ (72 : Int) ∧ (72 : Int) ≤ 100) ∧
    (1 ≤ (25 : ℚ) / 4 ∧ (25 : ℚ) / 4 ≤ 10) ∧
    (producerRecordOk (generate_message UpdateType.exercise
      { heart_rate := 72, steps := 50, calories := 500, carbs := 60,
        protein := 30, fat := 20, duration := 30, distance := 25 / 4 }) = true ∧
    (∃ tn, jsonGet (generate_message UpdateType.exercise
      { heart_rate := 72, steps := 50, calories := 500, carbs := 60,
        protein := 30, fat := 20, duration := 30, distance := 25 / 4 }) "type"
        = some (Json.str tn) ∧
      (tn = "heart_rate" ∨ tn = "steps" ∨ tn = "diet" ∨ tn = "exercise"))) :=
  ⟨by decide, ⟨by norm_num, by norm_num⟩,
   C8_producer_record_well_formed UpdateType.exercise
     { heart_rate := 72, steps := 50, calories := 500, carbs := 60,
       protein := 30, fat := 20, duration := 30, distance := 25 / 4 }
     (by decide) (by decide) (by decide) (by decide) (by decide) (by decide)
     (by decide) (by decide) (by decide) (by decide) (by decide) (by decide)
     (by decide) (by decide) (by norm_num) (by norm_num)⟩

/-- C10: no producer-generated record carries a diet key (diet-type records
carry calories, carbs, protein and fat instead), and update_chart only
touches the diet history when the message it reads has a diet key; so
processing any producer record leaves an empty diet history empty —
whether update_chart reads its real input (the never-assigned latest_msg
default, an empty dict) or, counterfactually, the producer record itself. -/
theorem C10_diet_history_stays_empty (t : UpdateType) (r : Draws)
    (pexc : Option PyExc) (c : ConsumerState)
    (hdiet : c.history.diet = [])
    (hlm : c.latest_msg = none ∨ c.latest_msg = some (generate_message t r)) :
    jsonGet (generate_message t r) "diet" = none ∧
    (∃ c2 logs, process_message (some (generate_message t r)) pexc c
        = Except.ok (c2, logs) ∧ c2.history.diet = []) := by
  refine ⟨by cases t <;> rfl, ?_⟩
  obtain ⟨fs, hfs, hdk, hek, hak⟩ :
      ∃ fs, generate_message t r = Json.obj fs ∧
        lookupField fs "diet" = none ∧ lookupField fs "exercise" = none ∧
        lookupField fs "author" = none := by
    cases t <;> exact ⟨_, rfl, rfl, rfl, rfl⟩
  have hha : jsonHashable ((lookupField fs "author").getD (Json.str "unknown")) = true := by
    rw [hak]
    rfl
  rw [hfs]
  rw [hfs] at hlm
  obtain ⟨efs, hlm1, hdk2, hek2⟩ :
      ∃ efs, (bumped c fs).latest_msg.getD (Json.obj []) = Json.obj efs ∧
        lookupField efs "diet" = none ∧ lookupField efs "exercise" = none := by
    rcases hlm with h | h
    · exact ⟨[], by simp [bumped, h], rfl, rfl⟩
    · exact ⟨fs, by simp [bumped, h], hdk, hek⟩
  cases pexc with
  | none =>
      have hch := update_chart_absent_none (bumped c fs) efs hlm1 hdk2 hek2
      refine ⟨_, _, process_message_obj_ok fs none c _ hha hch, ?_⟩
      simp [bumped, appendedFrom, hdiet]
  | some e =>
      have hch := update_chart_absent_some e (bumped c fs) efs hlm1 hdk2 hek2
      obtain ⟨tl, hpm⟩ := process_message_obj_err fs (some e) c _ e hha hch
      refine ⟨_, _, hpm, ?_⟩
      simp [bumped, appendedFrom, hdiet]

/-- C10 witness: a producer diet record processed from the initial state
leaves the diet history empty. -/
theorem C10_diet_history_witness :
    initConsumer.history.diet = [] ∧
    (initConsumer.latest_msg = none ∨
      initConsumer.latest_msg = some (generate_message UpdateType.diet
        { heart_rate := 72, steps := 50, calories := 500, carbs := 60,
          protein := 30, fat := 20, duration := 30, distance := 5 })) ∧
    (jsonGet (generate_message UpdateType.diet
        { heart_rate := 72, steps := 50, calories := 500, carbs := 60,
          protein := 30, fat := 20, duration := 30, distance := 5 }) "diet" = none ∧
    (∃ c2 logs, process_message (some (generate_message UpdateType.diet
        { heart_rate := 72, steps := 50, calories := 500, carbs := 60,
          protein := 30, fat := 20, duration := 30, distance := 5 })) none initConsumer
        = Except.ok (c2, logs) ∧ c2.history.diet = [])) :=
  ⟨rfl, Or.inl rfl,
   C10_diet_history_stays_empty UpdateType.diet
     { heart_rate := 72, steps := 50, calories := 500, carbs := 60,
       protein := 30, fat := 20, duration := 30, distance := 5 }
     none initConsumer rfl (Or.inl rfl)⟩
